import Mathlib

/-!
Shallow embedding of the Arduino Buttons library (Alarm-Siren/arduino-buttons):
`src/Buttons.h` and `src/buttons.cpp`.  The static class state is modelled as
an explicit record threaded through the operations; `millis()` and
`digitalRead(pin)` are environment parameters.  `unsigned long` arithmetic is
modelled on `Nat` with reduction modulo `2 ^ 32`.
-/

namespace Buttons

/-- Width of `unsigned long` (the millisecond clock and timestamps): 2^32. -/
def W : Nat := 2 ^ 32

/-- Debounce period in milliseconds (`Buttons::DEBOUNCE_DELAY` in Buttons.h). -/
def DEBOUNCE_DELAY : Nat := 50

/-- One entry of the registry: `struct Buttons::Button` in Buttons.h. -/
structure Button where
  currentState : Bool
  changeFlag : Bool
  lastChangeTime : Nat
deriving Repr, DecidableEq

/-- The `Button()` constructor: all fields false / 0 (Buttons.h lines 185-189). -/
def Button.init : Button := { currentState := false, changeFlag := false, lastChangeTime := 0 }

instance : Inhabited Button := ⟨Button.init⟩

/-- The static state of the `Buttons` class: `_numberOfButtons`, `_buttonPins`,
`_buttonStatus`, `_begun` (buttons.cpp lines 44-47).  The two arrays are
modelled as lists; after a `stop` the freed arrays are modelled as `[]`. -/
structure ButtonsState where
  numButtons : Nat
  buttonPins : List Nat
  buttonStatus : List Button
  begun : Bool
deriving Repr, DecidableEq

/-- The state at program start: counters zero, arrays null, not begun. -/
def ButtonsState.init : ButtonsState :=
  { numButtons := 0, buttonPins := [], buttonStatus := [], begun := false }

/-- `Buttons::stop` (buttons.cpp lines 87-104): no-op when not begun; otherwise
detaches interrupts, frees both arrays and clears `_begun`.  `_numberOfButtons`
is not reset by the source, and is kept unchanged here. -/
def stop (s : ButtonsState) : ButtonsState :=
  if s.begun = false then s
  else { s with buttonPins := [], buttonStatus := [], begun := false }

/-- `Buttons::begin` (buttons.cpp lines 49-85).  The `buttonPins` pointer
argument is `none` for a null pointer, otherwise `some pins` with `pins` the
`numberOfButtons` bytes the source copies out of the array.  `allocOk` models
whether `new byte[n]` / `new Button[n]` returned non-null storage.  The source
returns false at once on a null pointer (before the restart check), stops a
running registry before reallocating, sets `_numberOfButtons` before the
allocation check, and marks `_begun` only on the success path. -/
def begin (s : ButtonsState) (buttonPins : Option (List Nat)) (allocOk : Bool) :
    Bool × ButtonsState :=
  match buttonPins with
  | none => (false, s)
  | some pins =>
    let s0 := if s.begun then stop s else s
    let s1 := { s0 with numButtons := pins.length }
    if allocOk = false then
      (false, { s1 with buttonPins := [], buttonStatus := [] })
    else
      (true, { s1 with buttonPins := pins,
                       buttonStatus := List.replicate pins.length Button.init,
                       begun := true })

/-- The per-entry body of the ISR loop (buttons.cpp lines 109-116):
`readState = !digitalRead(pin)`; on a divergence from `currentState`, promote
it (and raise `changeFlag`) only when `millis() > lastChangeTime +
DEBOUNCE_DELAY` in `unsigned long` arithmetic, and stamp `lastChangeTime`
with `millis()` in either case. -/
def isrUpdate (digitalReadVal : Bool) (now : Nat) (b : Button) : Button :=
  let readState := !digitalReadVal
  if readState ≠ b.currentState then
    let b' :=
      if (b.lastChangeTime + DEBOUNCE_DELAY) % W < now % W then
        { b with currentState := readState, changeFlag := true }
      else b
    { b' with lastChangeTime := now % W }
  else b

/-- `Buttons::button_ISR` (buttons.cpp lines 106-118): for every registered
index `i`, reread line `_buttonPins[i]` and apply the debounce transition to
`_buttonStatus[i]`.  `readLevel` is the environment's `digitalRead` and `now`
the value of `millis()` during this invocation. -/
def button_ISR (readLevel : Nat → Bool) (now : Nat) (s : ButtonsState) : ButtonsState :=
  { s with buttonStatus :=
      List.zipWith (fun pin b => isrUpdate (readLevel pin) now b) s.buttonPins s.buttonStatus }

/-- Set the change flag of entry `id` to false, leaving everything else alone
(the `_buttonStatus[buttonId].changeFlag = false` statements of the accessors). -/
def clearFlagAt (l : List Button) (id : Nat) : List Button :=
  l.set id { l.getD id Button.init with changeFlag := false }

/-- `Buttons::down` (buttons.cpp lines 125-134): false when not begun;
otherwise optionally clear the change flag, then return `currentState`. -/
def down (s : ButtonsState) (id : Nat) (clearChangeFlag : Bool) : Bool × ButtonsState :=
  if s.begun = false then (false, s)
  else
    let s' :=
      if clearChangeFlag then { s with buttonStatus := clearFlagAt s.buttonStatus id } else s
    ((s'.buttonStatus.getD id Button.init).currentState, s')

/-- `Buttons::up` (buttons.cpp lines 136-139): the negation of `down`,
with the same side effects. -/
def up (s : ButtonsState) (id : Nat) (clearChangeFlag : Bool) : Bool × ButtonsState :=
  let r := down s id clearChangeFlag
  (!r.1, r.2)

/-- `Buttons::changed` (buttons.cpp lines 141-152): false when not begun;
otherwise capture `changeFlag` before optionally clearing it, and return the
captured value. -/
def changed (s : ButtonsState) (id : Nat) (clearChangeFlag : Bool) : Bool × ButtonsState :=
  if s.begun = false then (false, s)
  else
    let answer := (s.buttonStatus.getD id Button.init).changeFlag
    let s' :=
      if clearChangeFlag then { s with buttonStatus := clearFlagAt s.buttonStatus id } else s
    (answer, s')

/-- `Buttons::clicked` (buttons.cpp lines 120-123):
`changed(buttonId, clearChangeFlag) && down(buttonId, false)`, with C++
short-circuit evaluation of `&&`. -/
def clicked (s : ButtonsState) (id : Nat) (clearChangeFlag : Bool) : Bool × ButtonsState :=
  let r := changed s id clearChangeFlag
  if r.1 then down r.2 id false else (false, r.2)

/-- Modelled from the spec: `released` is declared in Buttons.h (line 94) but
its definition is absent from the sources.  The spec gives
`released(id, clearFlag) = changed(id, clearFlag) AND up(id, clearFlag=false)`,
symmetric to `clicked`, so it is embedded with the same short-circuit shape. -/
def released (s : ButtonsState) (id : Nat) (clearChangeFlag : Bool) : Bool × ButtonsState :=
  let r := changed s id clearChangeFlag
  if r.1 then up r.2 id false else (false, r.2)

/-- `Buttons::clearAllChangeFlags` (buttons.cpp lines 154-162): no-op when not
begun; otherwise clear every entry's change flag. -/
def clearAllChangeFlags (s : ButtonsState) : ButtonsState :=
  if s.begun = false then s
  else { s with buttonStatus := s.buttonStatus.map (fun b => { b with changeFlag := false }) }

/-- `Buttons::numberOfButtons` (buttons.cpp lines 164-171): `_numberOfButtons`
when begun, else 0. -/
def numberOfButtons (s : ButtonsState) : Nat :=
  if s.begun then s.numButtons else 0

/-- The debounce acceptance test exactly as written at buttons.cpp line 111:
`millis() > _buttonStatus[i].lastChangeTime + DEBOUNCE_DELAY` in
`unsigned long` arithmetic. -/
def acceptTest (now last : Nat) : Bool := (last + DEBOUNCE_DELAY) % W < now % W

/-- The wraparound-safe quiet-window test described by the spec: the elapsed
time `(now - last) mod 2^32` is compared against `DEBOUNCE_DELAY`.  This is
the comparison the spec claims the engine performs; it is not the source's. -/
def wrapDiffTest (now last : Nat) : Bool :=
  DEBOUNCE_DELAY < (now % W + (W - last % W)) % W

/-- A started two-button registry with one stale pending change on button 0,
used to instantiate theorems at concrete inputs. -/
def sampleState : ButtonsState :=
  { numButtons := 2
    buttonPins := [2, 3]
    buttonStatus :=
      [{ currentState := true, changeFlag := true, lastChangeTime := 7 },
       { currentState := false, changeFlag := false, lastChangeTime := 0 }]
    begun := true }

/-- State `t` differs from state `s` in at most the change flags of entries,
and any change-flag it does change is set to false; every other field of the
class state and of every entry is identical. -/
def clearsOnlyFlags (s t : ButtonsState) : Prop :=
  t.numButtons = s.numButtons ∧ t.buttonPins = s.buttonPins ∧ t.begun = s.begun
  ∧ t.buttonStatus.length = s.buttonStatus.length
  ∧ ∀ j, ((t.buttonStatus.getD j Button.init).currentState
            = (s.buttonStatus.getD j Button.init).currentState)
      ∧ ((t.buttonStatus.getD j Button.init).lastChangeTime
            = (s.buttonStatus.getD j Button.init).lastChangeTime)
      ∧ ((t.buttonStatus.getD j Button.init).changeFlag
            = (s.buttonStatus.getD j Button.init).changeFlag
         ∨ (t.buttonStatus.getD j Button.init).changeFlag = false)

theorem getD_eq (l : List Button) (i : Nat) (d : Button) :
    l.getD i d = (l.get? i).getD d := rfl

theorem clearFlagAt_length (l : List Button) (id : Nat) :
    (clearFlagAt l id).length = l.length := by
  unfold clearFlagAt
  exact l.length_set ..

theorem clearFlagAt_getD_ne (l : List Button) (id j : Nat) (h : j ≠ id) :
    (clearFlagAt l id).getD j Button.init = l.getD j Button.init := by
  rw [clearFlagAt, getD_eq, List.get?_set_ne _ _ (fun hh => h hh.symm)]
  rfl

theorem clearFlagAt_getD_self (l : List Button) (id : Nat) :
    (clearFlagAt l id).getD id Button.init =
      { l.getD id Button.init with changeFlag := false } := by
  by_cases h : id < l.length
  · rw [clearFlagAt, getD_eq, List.get?_set_eq_of_lt _ h]
    rfl
  · rw [clearFlagAt, List.set_eq_of_length_le (Nat.le_of_not_lt h),
        List.getD_eq_default _ _ (Nat.le_of_not_lt h)]
    rfl

theorem changed_eq (s : ButtonsState) (id : Nat) (f : Bool) (hb : s.begun = true) :
    changed s id f = ((s.buttonStatus.getD id Button.init).changeFlag,
      if f then { s with buttonStatus := clearFlagAt s.buttonStatus id } else s) := by
  simp [changed, hb]

theorem down_eq (s : ButtonsState) (id : Nat) (f : Bool) (hb : s.begun = true) :
    down s id f = ((s.buttonStatus.getD id Button.init).currentState,
      if f then { s with buttonStatus := clearFlagAt s.buttonStatus id } else s) := by
  cases f
  · simp [down, hb]
  · have hcs : ((clearFlagAt s.buttonStatus id).getD id Button.init).currentState
        = (s.buttonStatus.getD id Button.init).currentState := by
      rw [clearFlagAt_getD_self]
    simp [down, hb]
    simpa using hcs

theorem ite_clear_getD_ne (s : ButtonsState) (id : Nat) (f : Bool) (j : Nat) (hj : j ≠ id) :
    ((if f then { s with buttonStatus := clearFlagAt s.buttonStatus id } else s) :
        ButtonsState).buttonStatus.getD j Button.init
      = s.buttonStatus.getD j Button.init := by
  cases f
  · rfl
  · show (clearFlagAt s.buttonStatus id).getD j Button.init = _
    exact clearFlagAt_getD_ne _ _ _ hj

theorem ite_clear_getD_currentState (s : ButtonsState) (id : Nat) (f : Bool) :
    (((if f then { s with buttonStatus := clearFlagAt s.buttonStatus id } else s) :
        ButtonsState).buttonStatus.getD id Button.init).currentState
      = (s.buttonStatus.getD id Button.init).currentState := by
  cases f
  · rfl
  · show ((clearFlagAt s.buttonStatus id).getD id Button.init).currentState = _
    rw [clearFlagAt_getD_self]

theorem ite_clear_getD_lastChangeTime (s : ButtonsState) (id : Nat) (f : Bool) :
    (((if f then { s with buttonStatus := clearFlagAt s.buttonStatus id } else s) :
        ButtonsState).buttonStatus.getD id Button.init).lastChangeTime
      = (s.buttonStatus.getD id Button.init).lastChangeTime := by
  cases f
  · rfl
  · show ((clearFlagAt s.buttonStatus id).getD id Button.init).lastChangeTime = _
    rw [clearFlagAt_getD_self]

/-- Claim C7: for every registry state (started or not), every id and every
flag value, `up id f` is the negation of `down id f` at the same observation
point, with identical side effects on the change flag. -/
theorem C7_up_is_not_down (s : ButtonsState) (id : Nat) (f : Bool) :
    up s id f = (!(down s id f).1, (down s id f).2) := rfl

/-- Claim C5: on a started registry, `clicked id f` returns
`changed id f AND down id false` (the `down` sub-call forced non-clearing),
and its entire state effect is the at-most-one flag clear of the `changed`
sub-call: when `f` it clears the change flag of entry `id` once, leaving the
other fields of that entry and all other entries unchanged. -/
theorem C5_clicked_composite (s : ButtonsState) (id : Nat) (f : Bool)
    (hb : s.begun = true) :
    (clicked s id f).1 = ((changed s id f).1 && (down s id false).1)
    ∧ (clicked s id f).2 =
        (if f then { s with buttonStatus := clearFlagAt s.buttonStatus id } else s)
    ∧ (∀ j, j ≠ id → (clicked s id f).2.buttonStatus.getD j Button.init
          = s.buttonStatus.getD j Button.init)
    ∧ ((clicked s id f).2.buttonStatus.getD id Button.init).currentState
        = (s.buttonStatus.getD id Button.init).currentState
    ∧ ((clicked s id f).2.buttonStatus.getD id Button.init).lastChangeTime
        = (s.buttonStatus.getD id Button.init).lastChangeTime := by
  have hch := changed_eq s id f hb
  have hchf : (changed s id f).1 = (s.buttonStatus.getD id Button.init).changeFlag :=
    congrArg Prod.fst hch
  have hchs : (changed s id f).2
      = (if f then { s with buttonStatus := clearFlagAt s.buttonStatus id } else s) :=
    congrArg Prod.snd hch
  have hbs : ((if f then { s with buttonStatus := clearFlagAt s.buttonStatus id } else s) :
      ButtonsState).begun = true := by
    cases f <;> simpa using hb
  have hdownf : (down s id false).1 = (s.buttonStatus.getD id Button.init).currentState :=
    congrArg Prod.fst (down_eq s id false hb)
  have hclick : clicked s id f =
      (if (changed s id f).1 then down (changed s id f).2 id false
       else (false, (changed s id f).2)) := rfl
  have hval : (clicked s id f).1
      = ((s.buttonStatus.getD id Button.init).changeFlag
          && (s.buttonStatus.getD id Button.init).currentState) := by
    rw [hclick, hchf, hchs]
    cases hflag : (s.buttonStatus.getD id Button.init).changeFlag
    · simp
    · simp only [if_true, Bool.true_and]
      rw [congrArg Prod.fst (down_eq _ id false hbs)]
      exact ite_clear_getD_currentState s id f
  have hstate : (clicked s id f).2
      = (if f then { s with buttonStatus := clearFlagAt s.buttonStatus id } else s) := by
    rw [hclick, hchf, hchs]
    cases hflag : (s.buttonStatus.getD id Button.init).changeFlag
    · simp
    · simp only [if_true]
      have h := congrArg Prod.snd
        (down_eq (if f then { s with buttonStatus := clearFlagAt s.buttonStatus id } else s)
          id false hbs)
      simpa using h
  refine ⟨by rw [hval, hchf, hdownf], hstate, ?_, ?_, ?_⟩
  · intro j hj
    rw [hstate]
    exact ite_clear_getD_ne s id f j hj
  · rw [hstate]
    exact ite_clear_getD_currentState s id f
  · rw [hstate]
    exact ite_clear_getD_lastChangeTime s id f

/-- Claim C5 witness at a concrete started state. -/
theorem C5_clicked_composite_witness :
    (clicked sampleState 0 true).1 = true
    ∧ (clicked sampleState 0 true).2.buttonStatus.getD 1 Button.init
        = sampleState.buttonStatus.getD 1 Button.init
    ∧ ((clicked sampleState 0 true).2.buttonStatus.getD 0 Button.init).lastChangeTime
        = (sampleState.buttonStatus.getD 0 Button.init).lastChangeTime := by
  have h := C5_clicked_composite sampleState 0 true rfl
  refine ⟨?_, h.2.2.1 1 (by decide), h.2.2.2.2⟩
  rw [h.1]
  decide

/-- Claim C6: on a started registry `changed id f` returns the pre-clear value
of the change flag and clears it afterwards iff `f`; hence with an unread
pending change, `changed id false` returns the same answer on a repeated
call, while after a `changed id true` any further `changed` call on that
entry returns false. -/
theorem C6_changed_contract (s : ButtonsState) (id : Nat) (f : Bool)
    (hb : s.begun = true) :
    (changed s id f).1 = (s.buttonStatus.getD id Button.init).changeFlag
    ∧ (changed s id f).2 =
        (if f then { s with buttonStatus := clearFlagAt s.buttonStatus id } else s)
    ∧ (changed (changed s id false).2 id false).1 = (changed s id false).1
    ∧ (changed (changed s id true).2 id f).1 = false := by
  have h0 := changed_eq s id f hb
  have hf : changed s id false = ((s.buttonStatus.getD id Button.init).changeFlag, s) := by
    simpa using changed_eq s id false hb
  have ht : changed s id true = ((s.buttonStatus.getD id Button.init).changeFlag,
      { s with buttonStatus := clearFlagAt s.buttonStatus id }) := by
    simpa using changed_eq s id true hb
  have hb' : ({ s with buttonStatus := clearFlagAt s.buttonStatus id } : ButtonsState).begun
      = true := hb
  have h3 := changed_eq { s with buttonStatus := clearFlagAt s.buttonStatus id } id f hb'
  refine ⟨congrArg Prod.fst h0, congrArg Prod.snd h0, ?_, ?_⟩
  · have hs2 : (changed s id false).2 = s := congrArg Prod.snd hf
    rw [hs2]
  · have ht2 : (changed s id true).2
        = { s with buttonStatus := clearFlagAt s.buttonStatus id } := congrArg Prod.snd ht
    rw [ht2]
    have h5 : (changed { s with buttonStatus := clearFlagAt s.buttonStatus id } id f).1
        = ((clearFlagAt s.buttonStatus id).getD id Button.init).changeFlag :=
      congrArg Prod.fst h3
    rw [h5, clearFlagAt_getD_self]

/-- Claim C6 witness at a concrete started state with a pending change. -/
theorem C6_changed_contract_witness :
    (changed sampleState 0 true).1 = true
    ∧ (changed (changed sampleState 0 false).2 0 false).1
        = (changed sampleState 0 false).1
    ∧ (changed (changed sampleState 0 true).2 0 true).1 = false := by
  have h := C6_changed_contract sampleState 0 true rfl
  refine ⟨?_, h.2.2.1, h.2.2.2⟩
  rw [h.1]
  decide

/-- Claim C2 counterexample: `begin` called with a non-null pointer and zero
lines (allocation succeeding) returns true and marks the registry begun,
rather than failing as the claim states. -/
theorem C2_empty_list_succeeds :
    (begin ButtonsState.init (some []) true).1 = true
    ∧ (begin ButtonsState.init (some []) true).2.begun = true := by decide

/-- Claim C2 amended: `begin` fails exactly when the supplied pointer is null
or allocation fails — an empty line list with a non-null pointer is not
rejected — and the null-pointer failure leaves the state untouched. -/
theorem C2_begin_failure_amended (s : ButtonsState) (lp : Option (List Nat)) (a : Bool) :
    ((begin s lp a).1 = false ↔ (lp = none ∨ a = false))
    ∧ (begin s none a).2 = s := by
  refine ⟨?_, rfl⟩
  rcases lp with _ | pins <;> cases a <;> simp [begin]

/-- Claim C4 counterexample: on a never-started registry, `up` returns true
(the negation of `down`'s safe default false), not false as the claim states. -/
theorem C4_up_not_begun_counterexample :
    (up ButtonsState.init 0 false).1 = true := by decide

/-- Claim C4 amended: on a not-begun registry every accessor is a no-op and
`down`, `changed`, `clicked` and `released` return false and
`numberOfButtons` returns 0 for every id and flag value; `up`, however,
returns true, being the plain negation of `down`. -/
theorem C4_not_begun_defaults (s : ButtonsState) (id : Nat) (f : Bool)
    (hb : s.begun = false) :
    (down s id f).1 = false ∧ (changed s id f).1 = false
    ∧ (clicked s id f).1 = false ∧ (released s id f).1 = false
    ∧ (up s id f).1 = true
    ∧ numberOfButtons s = 0
    ∧ (down s id f).2 = s ∧ (changed s id f).2 = s ∧ (clicked s id f).2 = s
    ∧ (released s id f).2 = s ∧ (up s id f).2 = s := by
  simp [down, up, changed, clicked, released, numberOfButtons, hb]

/-- Claim C4 witness at the initial (never-started) state. -/
theorem C4_not_begun_defaults_witness :
    (down ButtonsState.init 3 true).1 = false
    ∧ (up ButtonsState.init 3 true).1 = true
    ∧ numberOfButtons ButtonsState.init = 0 := by
  have h := C4_not_begun_defaults ButtonsState.init 3 true rfl
  exact ⟨h.1, h.2.2.2.2.1, h.2.2.2.2.2.1⟩

theorem zipWith_get? {α β γ : Type} (f : α → β → γ) (l1 : List α) (l2 : List β)
    (i : Nat) (d1 : α) (d2 : β) (h1 : i < l1.length) (h2 : i < l2.length) :
    (List.zipWith f l1 l2).get? i = some (f (l1.getD i d1) (l2.getD i d2)) := by
  rw [List.get?_eq_getElem?, List.getElem?_zipWith]
  rw [List.getElem?_eq_getElem h1, List.getElem?_eq_getElem h2]
  simp [List.getD, List.getElem?_eq_getElem h1, List.getElem?_eq_getElem h2]

/-- Claim C1: one invocation of the debounce engine applies to every
registered line index `i` exactly this transition: the raw state is the
logical NOT of the digital read of line `i`; if it equals the entry's
`currentState` the entry is left entirely unchanged; if it differs, the entry
takes `currentState := raw` together with `changeFlag := true` exactly when
`now` is strictly greater than `lastChangeTime + DEBOUNCE_DELAY` (unsigned
arithmetic; an exact tie is rejected), and whether accepted or rejected,
`lastChangeTime` is updated to `now`. -/
theorem C1_isr_transition (readLevel : Nat → Bool) (now : Nat) (s : ButtonsState)
    (i : Nat) (hp : i < s.buttonPins.length) (hs : i < s.buttonStatus.length) :
    (button_ISR readLevel now s).buttonStatus.getD i Button.init =
      (if (!readLevel (s.buttonPins.getD i 0))
            = (s.buttonStatus.getD i Button.init).currentState then
        s.buttonStatus.getD i Button.init
      else if ((s.buttonStatus.getD i Button.init).lastChangeTime + DEBOUNCE_DELAY) % W
            < now % W then
        { currentState := !readLevel (s.buttonPins.getD i 0), changeFlag := true,
          lastChangeTime := now % W }
      else
        { s.buttonStatus.getD i Button.init with lastChangeTime := now % W }) := by
  have hz := zipWith_get? (fun pin b => isrUpdate (readLevel pin) now b)
      s.buttonPins s.buttonStatus i 0 Button.init hp hs
  show ((List.zipWith (fun pin b => isrUpdate (readLevel pin) now b)
      s.buttonPins s.buttonStatus).get? i).getD Button.init = _
  rw [hz]
  show (if (!readLevel (s.buttonPins.getD i 0))
          ≠ (s.buttonStatus.getD i Button.init).currentState then
      { (if ((s.buttonStatus.getD i Button.init).lastChangeTime + DEBOUNCE_DELAY) % W
            < now % W then
          { s.buttonStatus.getD i Button.init with
              currentState := !readLevel (s.buttonPins.getD i 0), changeFlag := true }
        else s.buttonStatus.getD i Button.init) with lastChangeTime := now % W }
    else s.buttonStatus.getD i Button.init) = _
  by_cases hr : (!readLevel (s.buttonPins.getD i 0))
      = (s.buttonStatus.getD i Button.init).currentState
  · rw [if_neg (fun hh => hh hr), if_pos hr]
  · rw [if_pos hr, if_neg hr]
    by_cases hacc : ((s.buttonStatus.getD i Button.init).lastChangeTime + DEBOUNCE_DELAY) % W
        < now % W
    · rw [if_pos hacc, if_pos hacc]
    · rw [if_neg hacc, if_neg hacc]

/-- Claim C1 witness: on a freshly started one-button registry, a raw
divergence at time 100 is accepted and stamped. -/
theorem C1_isr_transition_witness :
    (button_ISR (fun _ => false) 100
        { numButtons := 1, buttonPins := [2], buttonStatus := [Button.init], begun := true }
      ).buttonStatus.getD 0 Button.init
      = { currentState := true, changeFlag := true, lastChangeTime := 100 } := by
  have h := C1_isr_transition (fun _ => false) 100
      { numButtons := 1, buttonPins := [2], buttonStatus := [Button.init], begun := true }
      0 (by decide) (by decide)
  rw [h]
  decide

/-- Claim C3 counterexample: with `lastChangeTime = 100` and the clock read
at 50 after a wrap (a quiet gap of 2^32 - 50 ms), the modular-difference test
the claim describes accepts the divergence, but the source's comparison
`millis() > lastChangeTime + DEBOUNCE_DELAY` rejects it: the engine leaves
the change flag down. -/
theorem C3_wraparound_counterexample :
    acceptTest 50 100 = false
    ∧ wrapDiffTest 50 100 = true
    ∧ ((button_ISR (fun _ => false) 50
          { numButtons := 1, buttonPins := [2],
            buttonStatus :=
              [{ currentState := false, changeFlag := false, lastChangeTime := 100 }],
            begun := true }).buttonStatus.getD 0 Button.init).changeFlag = false := by
  exact ⟨by decide, by decide, by decide⟩

/-- Claim C3 amended: the engine compares `now` and
`lastChangeTime + DEBOUNCE_DELAY` as absolute values in `unsigned long`
arithmetic rather than comparing the modular difference `now - lastChangeTime`
against the delay; the two tests agree whenever no wraparound is involved
(`lastChangeTime ≤ now < 2^32` and the sum does not wrap), but they can
disagree across a clock wrap, as the counterexample shows. -/
theorem C3_acceptance_no_wrap (now last : Nat) (h1 : last ≤ now) (h2 : now < W)
    (h3 : last + DEBOUNCE_DELAY < W) :
    acceptTest now last = wrapDiffTest now last
    ∧ (acceptTest now last = true ↔ last + DEBOUNCE_DELAY < now) := by
  have hW : W = 4294967296 := by norm_num [W]
  have hl : last < W := lt_of_le_of_lt h1 h2
  have e1 : now % W = now := Nat.mod_eq_of_lt h2
  have e2 : last % W = last := Nat.mod_eq_of_lt hl
  have e3 : (last + DEBOUNCE_DELAY) % W = last + DEBOUNCE_DELAY := Nat.mod_eq_of_lt h3
  have e4 : (now % W + (W - last % W)) % W = now - last := by
    rw [e1, e2]
    rw [hW] at hl h2 ⊢
    have h5 : now + (4294967296 - last) = (now - last) + 4294967296 := by omega
    rw [h5, Nat.add_mod_right, Nat.mod_eq_of_lt (by omega)]
  constructor
  · simp only [acceptTest, wrapDiffTest]
    rw [e4, e1, e3]
    refine decide_eq_decide.mpr ?_
    have hD : DEBOUNCE_DELAY = 50 := rfl
    rw [hD]
    omega
  · simp only [acceptTest]
    rw [e1, e3]
    exact decide_eq_true_iff

/-- Claim C3 amended-theorem witness without a wrap: at `last = 100`,
`now = 200` the two tests agree and the divergence is accepted. -/
theorem C3_acceptance_no_wrap_witness :
    acceptTest 200 100 = wrapDiffTest 200 100
    ∧ (acceptTest 200 100 = true ↔ 100 + DEBOUNCE_DELAY < 200) :=
  C3_acceptance_no_wrap 200 100 (by decide) (by decide) (by decide)

theorem replicate_getD (n i : Nat) (a : Button) : (List.replicate n a).getD i a = a := by
  simp [List.getD]

/-- Claim C8: a successful `begin` while the registry is already started
first discards the previous registry entirely: the resulting state carries
exactly the new pin list, one all-default entry per new line (`currentState`
false, `changeFlag` false, `lastChangeTime` 0), `numberOfButtons` counts only
the new set, and no stale change flag is observable through `changed`. -/
theorem C8_restart_resets (s : ButtonsState) (pins : List Nat) (hb : s.begun = true) :
    (begin s (some pins) true).1 = true
    ∧ (begin s (some pins) true).2 =
        { numButtons := pins.length, buttonPins := pins,
          buttonStatus := List.replicate pins.length Button.init, begun := true }
    ∧ numberOfButtons (begin s (some pins) true).2 = pins.length
    ∧ (∀ id f, (changed (begin s (some pins) true).2 id f).1 = false) := by
  have hres : begin s (some pins) true = (true,
      { numButtons := pins.length, buttonPins := pins,
        buttonStatus := List.replicate pins.length Button.init, begun := true }) := by
    simp [begin, stop, hb]
  refine ⟨congrArg Prod.fst hres, congrArg Prod.snd hres, ?_, ?_⟩
  · rw [congrArg Prod.snd hres]
    rfl
  · intro id f
    rw [congrArg Prod.snd hres]
    have hb2 : ButtonsState.begun
        { numButtons := pins.length, buttonPins := pins,
          buttonStatus := List.replicate pins.length Button.init, begun := true } = true := rfl
    rw [congrArg Prod.fst (changed_eq _ id f hb2)]
    show ((List.replicate pins.length Button.init).getD id Button.init).changeFlag = false
    rw [replicate_getD]
    rfl

/-- Claim C8 witness: restarting the stale two-button sample registry with a
single new line resets everything observable. -/
theorem C8_restart_resets_witness :
    (begin sampleState (some [7]) true).1 = true
    ∧ numberOfButtons (begin sampleState (some [7]) true).2 = 1
    ∧ (changed (begin sampleState (some [7]) true).2 0 false).1 = false := by
  have h := C8_restart_resets sampleState [7] rfl
  exact ⟨h.1, by simpa using h.2.2.1, h.2.2.2 0 false⟩

/-- Claim C9 counterexample: `begin` called with a null line list while a
registry is started returns false before the restart check, so the previous
registry stays begun, `numberOfButtons` still reports its 2 lines and the
stale change flag of button 0 is still observable — the failed `begin` does
not leave the not-begun state. -/
theorem C9_null_while_started_counterexample :
    (begin sampleState none true).1 = false
    ∧ (begin sampleState none true).2.begun = true
    ∧ numberOfButtons (begin sampleState none true).2 = 2
    ∧ (changed (begin sampleState none true).2 0 false).1 = true := by decide

/-- Claim C9 amended: a `begin` that fails on a null line list leaves the
state exactly as it was (in particular a previously started registry remains
started), while a `begin` that fails on allocation leaves the registry not
begun, with `numberOfButtons` 0 and the accessors at their not-begun
defaults. -/
theorem C9_begin_failure_state (s : ButtonsState) (a : Bool) (pins : List Nat) :
    (begin s none a).2 = s
    ∧ (begin s (some pins) false).2.begun = false
    ∧ numberOfButtons (begin s (some pins) false).2 = 0
    ∧ ∀ id f, (down (begin s (some pins) false).2 id f).1 = false
        ∧ (changed (begin s (some pins) false).2 id f).1 = false := by
  have hfail : (begin s (some pins) false).2.begun = false := by
    cases hb : s.begun <;> simp [begin, stop, hb]
  refine ⟨rfl, hfail, ?_, ?_⟩
  · simp [numberOfButtons, hfail]
  · intro id f
    constructor
    · simp [down, hfail]
    · simp [changed, hfail]

theorem clearsOnlyFlags_refl (s : ButtonsState) : clearsOnlyFlags s s :=
  ⟨rfl, rfl, rfl, rfl, fun _ => ⟨rfl, rfl, Or.inl rfl⟩⟩

theorem clearsOnlyFlags_clearFlagAt (s : ButtonsState) (id : Nat) :
    clearsOnlyFlags s { s with buttonStatus := clearFlagAt s.buttonStatus id } := by
  refine ⟨rfl, rfl, rfl, clearFlagAt_length _ _, ?_⟩
  intro j
  by_cases hj : j = id
  · subst hj
    have h := clearFlagAt_getD_self s.buttonStatus j
    exact ⟨by rw [show ({ s with buttonStatus := clearFlagAt s.buttonStatus j } :
              ButtonsState).buttonStatus.getD j Button.init
              = (clearFlagAt s.buttonStatus j).getD j Button.init from rfl, h],
           by rw [show ({ s with buttonStatus := clearFlagAt s.buttonStatus j } :
              ButtonsState).buttonStatus.getD j Button.init
              = (clearFlagAt s.buttonStatus j).getD j Button.init from rfl, h],
           Or.inr (by rw [show ({ s with buttonStatus := clearFlagAt s.buttonStatus j } :
              ButtonsState).buttonStatus.getD j Button.init
              = (clearFlagAt s.buttonStatus j).getD j Button.init from rfl, h])⟩
  · have h := clearFlagAt_getD_ne s.buttonStatus id j hj
    exact ⟨by rw [show ({ s with buttonStatus := clearFlagAt s.buttonStatus id } :
              ButtonsState).buttonStatus.getD j Button.init
              = (clearFlagAt s.buttonStatus id).getD j Button.init from rfl, h],
           by rw [show ({ s with buttonStatus := clearFlagAt s.buttonStatus id } :
              ButtonsState).buttonStatus.getD j Button.init
              = (clearFlagAt s.buttonStatus id).getD j Button.init from rfl, h],
           Or.inl (by rw [show ({ s with buttonStatus := clearFlagAt s.buttonStatus id } :
              ButtonsState).buttonStatus.getD j Button.init
              = (clearFlagAt s.buttonStatus id).getD j Button.init from rfl, h])⟩

theorem clearsOnlyFlags_map (s : ButtonsState) :
    clearsOnlyFlags s
      { s with buttonStatus := s.buttonStatus.map (fun b => { b with changeFlag := false }) } := by
  refine ⟨rfl, rfl, rfl, by simp, ?_⟩
  intro j
  show ((s.buttonStatus.map (fun b => { b with changeFlag := false })).getD j
        Button.init).currentState = _ ∧ _ ∧ _
  rw [getD_eq, getD_eq, List.get?_map]
  cases hj : s.buttonStatus.get? j
  · exact ⟨rfl, rfl, Or.inl rfl⟩
  · exact ⟨rfl, rfl, Or.inr rfl⟩

/-- Claim C10: no main-line accessor ever modifies `currentState` or
`lastChangeTime` of any entry: `down`, `up`, `changed` and `clicked` with
`clearChangeFlag = false` leave the whole state unchanged, and with
`clearChangeFlag = true` — as well as `clearAllChangeFlags` — they modify at
most change flags, only ever setting them to false. -/
theorem C10_accessor_frame (s : ButtonsState) (id : Nat) :
    (down s id false).2 = s ∧ (up s id false).2 = s ∧ (changed s id false).2 = s
    ∧ (clicked s id false).2 = s
    ∧ clearsOnlyFlags s (down s id true).2 ∧ clearsOnlyFlags s (up s id true).2
    ∧ clearsOnlyFlags s (changed s id true).2 ∧ clearsOnlyFlags s (clicked s id true).2
    ∧ clearsOnlyFlags s (clearAllChangeFlags s) := by
  cases hb : s.begun
  · have hd : ∀ f, (down s id f).2 = s := fun f => by simp [down, hb]
    have hc : ∀ f, (changed s id f).2 = s := fun f => by simp [changed, hb]
    have hk : ∀ f, (clicked s id f).2 = s := fun f => by simp [clicked, changed, down, hb]
    have ha : clearAllChangeFlags s = s := by simp [clearAllChangeFlags, hb]
    refine ⟨hd false, hd false, hc false, hk false, ?_, ?_, ?_, ?_, ?_⟩
    · rw [hd true]; exact clearsOnlyFlags_refl s
    · show clearsOnlyFlags s (down s id true).2
      rw [hd true]; exact clearsOnlyFlags_refl s
    · rw [hc true]; exact clearsOnlyFlags_refl s
    · rw [hk true]; exact clearsOnlyFlags_refl s
    · rw [ha]; exact clearsOnlyFlags_refl s
  · have hd0 : (down s id false).2 = s := by simp [down, hb]
    have hc0 : (changed s id false).2 = s := by simp [changed, hb]
    have hk0 : (clicked s id false).2 = s := by
      have hclick : clicked s id false =
          (if (changed s id false).1 then down (changed s id false).2 id false
           else (false, (changed s id false).2)) := rfl
      rw [hclick, hc0]
      cases hfl : (changed s id false).1
      · simp
      · simpa using hd0
    have hd1 : (down s id true).2 = { s with buttonStatus := clearFlagAt s.buttonStatus id } := by
      simpa using congrArg Prod.snd (down_eq s id true hb)
    have hc1 : (changed s id true).2
        = { s with buttonStatus := clearFlagAt s.buttonStatus id } := by
      simpa using congrArg Prod.snd (changed_eq s id true hb)
    have hk1 : (clicked s id true).2
        = { s with buttonStatus := clearFlagAt s.buttonStatus id } := by
      have hclick : clicked s id true =
          (if (changed s id true).1 then down (changed s id true).2 id false
           else (false, (changed s id true).2)) := rfl
      have hchf : (changed s id true).1 = (s.buttonStatus.getD id Button.init).changeFlag :=
        congrArg Prod.fst (changed_eq s id true hb)
      rw [hclick, hchf, hc1]
      cases hflag : (s.buttonStatus.getD id Button.init).changeFlag
      · simp
      · simp only [if_true]
        have hbs : ({ s with buttonStatus := clearFlagAt s.buttonStatus id } :
            ButtonsState).begun = true := hb
        simpa using congrArg Prod.snd (down_eq _ id false hbs)
    have ha1 : clearAllChangeFlags s
        = { s with
            buttonStatus := s.buttonStatus.map (fun b => { b with changeFlag := false }) } := by
      simp [clearAllChangeFlags, hb]
    refine ⟨hd0, hd0, hc0, hk0, ?_, ?_, ?_, ?_, ?_⟩
    · rw [hd1]; exact clearsOnlyFlags_clearFlagAt s id
    · show clearsOnlyFlags s (down s id true).2
      rw [hd1]; exact clearsOnlyFlags_clearFlagAt s id
    · rw [hc1]; exact clearsOnlyFlags_clearFlagAt s id
    · rw [hk1]; exact clearsOnlyFlags_clearFlagAt s id
    · rw [ha1]; exact clearsOnlyFlags_map s

end Buttons
